import Mathlib

/-!
Verification of the `node-ace-can` transport abstraction layer (`src/ace_can.cpp`).

The development shallowly embeds the backend-neutral CAN layer: the per-backend
bitrate and channel mappers, the frame codec (neutral <-> native, for the
Busmust and PCAN backends), the session open paths (as functions from an
abstract backend environment to a result plus the trace of backend calls),
the background receive loop's drain/readiness cycle, and the session
teardown path (`StopReceiveThread` / `Close`) as a state machine emitting an
event trace.  C machine integers are modelled as `Nat`/`Int` with explicit
wrap-around (`% 2^w`) where the C code narrows; C bitfield assignments
truncate modulo the field width, exactly as in the vendor headers.
The POSIX (`#else`) branches of the source are the ones modelled.
-/

namespace AceCan

/-! ### Vendor constants

Busmust constants are from `deps/busmust/include/bm_usb_def.h`; PCAN
constants are the fixed public values of the vendor `PCANBasic.h` header
(an external dependency of the repository). -/

def BM_ERROR_OK : Nat := 0
def BM_ERROR_QRCVEMPTY : Nat := 0x20
def BM_CAN_CAP : Nat := 0x0002
def BM_CAN_FD_CAP : Nat := 0x0004

def PCAN_NONEBUS : Nat := 0x00
def PCAN_USBBUS1 : Nat := 0x51
def PCAN_ERROR_OK : Nat := 0
def PCAN_ERROR_QRCVEMPTY : Nat := 0x20
def PCAN_MESSAGE_STANDARD : Nat := 0x00
def PCAN_MESSAGE_EXTENDED : Nat := 0x02
def PCAN_MESSAGE_RTR : Nat := 0x01
def PCAN_MESSAGE_FD : Nat := 0x04
def PCAN_MESSAGE_BRS : Nat := 0x08
def PCAN_MESSAGE_ESI : Nat := 0x10

def PCAN_BAUD_1M : Nat := 0x0014
def PCAN_BAUD_800K : Nat := 0x0016
def PCAN_BAUD_500K : Nat := 0x001C
def PCAN_BAUD_250K : Nat := 0x011C
def PCAN_BAUD_125K : Nat := 0x031C
def PCAN_BAUD_100K : Nat := 0x432F
def PCAN_BAUD_95K : Nat := 0xC34E
def PCAN_BAUD_83K : Nat := 0x852B
def PCAN_BAUD_50K : Nat := 0x472F
def PCAN_BAUD_47K : Nat := 0x1414
def PCAN_BAUD_33K : Nat := 0x8B2F
def PCAN_BAUD_20K : Nat := 0x532F
def PCAN_BAUD_10K : Nat := 0x672F
def PCAN_BAUD_5K : Nat := 0x7F7F

/-! ### Bitrate / channel mappers (`ace_can.cpp` lines 58-108) -/

/-- Models `MapPcanBaudrate` (`ace_can.cpp:58-76`): the C `switch` over the
fixed enumerated PCAN bitrates, returning `0` for any other value. -/
def MapPcanBaudrate (bitrate : Int) : Nat :=
  if bitrate = 1000000 then PCAN_BAUD_1M
  else if bitrate = 800000 then PCAN_BAUD_800K
  else if bitrate = 500000 then PCAN_BAUD_500K
  else if bitrate = 250000 then PCAN_BAUD_250K
  else if bitrate = 125000 then PCAN_BAUD_125K
  else if bitrate = 100000 then PCAN_BAUD_100K
  else if bitrate = 95000 then PCAN_BAUD_95K
  else if bitrate = 83333 then PCAN_BAUD_83K
  else if bitrate = 50000 then PCAN_BAUD_50K
  else if bitrate = 47619 then PCAN_BAUD_47K
  else if bitrate = 33333 then PCAN_BAUD_33K
  else if bitrate = 20000 then PCAN_BAUD_20K
  else if bitrate = 10000 then PCAN_BAUD_10K
  else if bitrate = 5000 then PCAN_BAUD_5K
  else 0

/-- The supported PCAN bitrates, as enumerated by the `switch` in
`MapPcanBaudrate`. -/
def pcanSupportedBitrates : List Int :=
  [1000000, 800000, 500000, 250000, 125000, 100000, 95000, 83333,
   50000, 47619, 33333, 20000, 10000, 5000]

/-- Models `ResolvePcanChannelHandle` (`ace_can.cpp:78-86`).  The
`static_cast<TPCANHandle>` narrows the C `int` to an unsigned 16-bit
value, hence the `% 65536`. -/
def ResolvePcanChannelHandle (channel : Int) : Nat :=
  if 0x20 ≤ channel then channel.toNat % 65536
  else if 1 ≤ channel ∧ channel ≤ 16 then PCAN_USBBUS1 + (channel.toNat - 1)
  else PCAN_NONEBUS

/-- The fields of `BM_BitrateTypeDef` that `BuildBusmustBitrate` sets
(the rest of the struct is zeroed by `memset`). -/
structure BM_BitrateTypeDef where
  nbitrate : Nat
  nsamplepos : Nat
  dsamplepos : Nat
deriving DecidableEq, Repr

/-- Models `BuildBusmustBitrate` (`ace_can.cpp:99-108`): reject non-positive
or non-multiple-of-1000 bitrates; `static_cast<uint16_t>(bitrate / 1000)`
truncates modulo `2^16`; the function finally returns `out.nbitrate != 0`. -/
def BuildBusmustBitrate (bitrate : Int) : Option BM_BitrateTypeDef :=
  if bitrate ≤ 0 ∨ bitrate % 1000 ≠ 0 then none
  else
    let nb : Nat := (bitrate / 1000).toNat % 65536
    if nb = 0 then none else some { nbitrate := nb, nsamplepos := 75, dsamplepos := 75 }

/-- The capability word of `BM_ChannelInfoTypeDef` (the only field the
layer inspects). -/
structure BM_ChannelInfo where
  cap : Nat
deriving DecidableEq, Repr

/-- Models `BusmustSupportsCan` (`ace_can.cpp:110-112`). -/
def BusmustSupportsCan (info : BM_ChannelInfo) : Bool :=
  (info.cap &&& (BM_CAN_CAP ||| BM_CAN_FD_CAP)) != 0

/-! ### Frame codec

Native message structures, with the bit-packed control fields of
`bm_usb_def.h` (`BM_TxMessageCtrlTypeDef` / `BM_RxMessageCtrlTypeDef`:
`DLC` is a 4-bit field, `IDE`/`RTR`/`BRS`/`FDF`/`ESI` are 1-bit fields;
`BM_MessageIdTypeDef`: `SID` 11 bits, `EID` 18 bits) and the plain
`TPCANMsg` of `PCANBasic.h` (`LEN` is a `BYTE`). -/

structure BM_MessageId where
  SID : Nat
  EID : Nat
deriving DecidableEq, Repr

structure BM_TxCtrl where
  DLC : Nat
  IDE : Nat
  RTR : Nat
  BRS : Nat
  FDF : Nat
  ESI : Nat
deriving DecidableEq, Repr

structure BM_CanMessageTx where
  id : BM_MessageId
  ctrl : BM_TxCtrl
  payload : List Nat
deriving DecidableEq, Repr

structure BM_RxCtrl where
  DLC : Nat
  IDE : Nat
deriving DecidableEq, Repr

structure BM_CanMessageRx where
  id : BM_MessageId
  ctrl : BM_RxCtrl
  payload : List Nat
deriving DecidableEq, Repr

structure TPCANMsg where
  ID : Nat
  MSGTYPE : Nat
  LEN : Nat
  DATA : List Nat
deriving DecidableEq, Repr

/-- The neutral message delivered to the host callback: the JS object
with fields `id` and `data` built by the receive worker. -/
structure NeutralMsg where
  id : Nat
  data : List Nat
deriving DecidableEq, Repr

/-- Models the Busmust encode half of `CANBus::Send` (`ace_can.cpp:368-382`):
`dlc = min(length, 64)`; standard encoding via `BM_SET_STD_MSG_ID` when
`id <= 0x7FF` (with `IDE = 0`) else `BM_SET_EXT_MSG_ID` (with `IDE = 1`);
the assignment `msg.ctrl.tx.DLC = dlc` truncates to the 4-bit field width;
`memcpy(msg.payload, data, dlc)` into the zero-initialized 64-byte payload. -/
def encodeBusmust (id : Nat) (data : List Nat) : BM_CanMessageTx :=
  let dlc := min data.length 64
  let mid : BM_MessageId :=
    if id ≤ 0x7FF then { SID := id &&& 0x7FF, EID := 0 }
    else { SID := (id >>> 18) &&& 0x7FF, EID := id &&& 0x3FFFF }
  { id := mid
    ctrl := { DLC := dlc % 16, IDE := if id ≤ 0x7FF then 0 else 1,
              RTR := 0, BRS := 0, FDF := 0, ESI := 0 }
    payload := data.take dlc ++ List.replicate (64 - dlc) 0 }

/-- Models the PCAN encode half of `CANBus::Send` (`ace_can.cpp:396-401`):
`dlc = min(length, 8)`; `MSGTYPE` is `PCAN_MESSAGE_EXTENDED` iff
`id > 0x7FF`, else `PCAN_MESSAGE_STANDARD`; `LEN = (BYTE)dlc`; `memcpy`
into the zero-initialized 8-byte `DATA`. -/
def encodePcan (id : Nat) (data : List Nat) : TPCANMsg :=
  let dlc := min data.length 8
  { ID := id
    MSGTYPE := if 0x7FF < id then PCAN_MESSAGE_EXTENDED else PCAN_MESSAGE_STANDARD
    LEN := dlc % 256
    DATA := data.take dlc ++ List.replicate (8 - dlc) 0 }

/-- The `bool extended = msg.ctrl.rx.IDE != 0` computed by the Busmust
receive callback (`ace_can.cpp:489`). -/
def busmustRxExtended (m : BM_CanMessageRx) : Bool :=
  m.ctrl.IDE != 0

/-- Models the Busmust decode in the receive worker (`ace_can.cpp:487-494`):
`canid` via `BM_GET_EXT_MSG_ID` (`(SID << 18) | EID`) when extended, else
`BM_GET_STD_MSG_ID` (`SID`); `dlc = min(msg.ctrl.rx.DLC, 64)`; payload
copied with length `dlc`. -/
def decodeBusmust (m : BM_CanMessageRx) : NeutralMsg :=
  let extended := busmustRxExtended m
  let canid := if extended then (m.id.SID <<< 18) ||| m.id.EID else m.id.SID
  let dlc := min m.ctrl.DLC 64
  { id := canid, data := m.payload.take dlc }

/-- The `bool extended = (msg.MSGTYPE & PCAN_MESSAGE_EXTENDED) != 0`
computed by the PCAN receive callback (`ace_can.cpp:559`). -/
def pcanRxExtended (m : TPCANMsg) : Bool :=
  (m.MSGTYPE &&& PCAN_MESSAGE_EXTENDED) != 0

/-- Models the PCAN decode in the receive worker (`ace_can.cpp:557-566`):
`canid = msg.ID`, masked with `0x7FF` when not extended;
`dlc = min(msg.LEN, 8)`; `DATA` copied with length `dlc`. -/
def decodePcan (m : TPCANMsg) : NeutralMsg :=
  let extended := pcanRxExtended m
  let canid := if extended then m.ID else m.ID &&& 0x7FF
  let dlc := min m.LEN 8
  { id := canid, data := m.DATA.take dlc }

/-! ### Error translator (`ace_can.cpp:88-97`, `114-122`) -/

/-- Uppercase hexadecimal digit, as produced by
`std::hex << std::uppercase`. -/
def hexDigitChar (n : Nat) : Char :=
  if n < 10 then Char.ofNat (48 + n) else Char.ofNat (55 + n)

/-- Digits of `n` in base 16, most significant first. -/
def toHexCore (n : Nat) (acc : List Char) : List Char :=
  let d := hexDigitChar (n % 16)
  if h : n < 16 then d :: acc
  else toHexCore (n / 16) (d :: acc)
termination_by n
decreasing_by
  exact Nat.div_lt_self (by omega) (by omega)

/-- Uppercase hexadecimal rendering of `n`, as produced by
`std::ostringstream << std::hex << std::uppercase << n`. -/
def toHexUpper (n : Nat) : String :=
  String.mk (toHexCore n [])

/-- Models `BusmustStatusToString` (`ace_can.cpp:88-97`): use the backend's
`BM_GetErrorText` lookup (abstracted as `lookup`) when it yields a
non-empty string, else fall back to a numeric rendering. -/
def BusmustStatusToString (lookup : Nat → String) (status : Nat) : String :=
  if lookup status ≠ "" then lookup status
  else "BM error 0x" ++ toHexUpper status

/-- Models `PcanStatusToString` (`ace_can.cpp:114-122`): use the buffer
filled by `CAN_GetErrorText` when that call returns `PCAN_ERROR_OK`
(abstracted as `lookup` returning `some text`), else fall back to a
numeric rendering. -/
def PcanStatusToString (lookup : Nat → Option String) (status : Nat) : String :=
  match lookup status with
  | some t => t
  | none => "PCAN error 0x" ++ toHexUpper status

/-! ### Send path (`CANBus::Send`, `ace_can.cpp:339-414`)

`CANBus::Send` reads only its first JS argument (the message object); the
write call arguments are otherwise fixed in the source:
`BM_WriteCanMessage(handle, &msg, 0, 100, &timestamp)` for Busmust and
`CAN_Write(handle, &msg)` (no timeout parameter at all) for PCAN. -/

/-- The backend write call issued by `CANBus::Send`, with the arguments the
source passes. -/
inductive WriteCall
  | bmWrite (msg : BM_CanMessageTx) (channelArg : Nat) (timeoutMs : Nat)
  | pcanWrite (msg : TPCANMsg)
deriving DecidableEq, Repr

/-- Models the Busmust branch of `CANBus::Send` applied to a JS call
`send(frame, timeout_ms)`.  The native method reads only `info[0]`, so the
`timeout_ms` argument is ignored and the backend write is invoked with
channel argument `0` and the constant timeout `100`
(`ace_can.cpp:385`). -/
def sendBusmust (id : Nat) (data : List Nat) (_timeout_ms : Int) : WriteCall :=
  WriteCall.bmWrite (encodeBusmust id data) 0 100

/-- Models the PCAN branch of `CANBus::Send` applied to a JS call
`send(frame, timeout_ms)`.  The native method reads only `info[0]`, and
`CAN_Write` takes no timeout argument (`ace_can.cpp:403`). -/
def sendPcan (id : Nat) (data : List Nat) (_timeout_ms : Int) : WriteCall :=
  WriteCall.pcanWrite (encodePcan id data)

/-- The timeout argument carried by a backend write call, when the call
has one. -/
def writeTimeoutArg : WriteCall → Option Nat
  | WriteCall.bmWrite _ _ t => some t
  | WriteCall.pcanWrite _ => none

/-! ### Session opening (`CANBus::CANBus`, `ace_can.cpp:137-311`)

The constructor is modelled as a function from an abstract backend
environment (the results of the external SDK calls) to a result and the
ordered trace of backend calls it issues. -/

/-- Backend calls issued during opening (and its failure unwinding). -/
inductive Call
  | bmInit
  | bmEnumerate (capacity : Nat)
  | bmOpenEx
  | bmGetNotification
  | bmClose
  | bmUnInit
  | canInit (handle : Nat) (baud : Nat)
  | canGetValueRecvEvent
deriving DecidableEq, Repr

/-- The distinct failures the constructor can raise. -/
inductive OpenError
  | channelNegative
  | bmInitFailed (status : Nat)
  | unsupportedBusmustBitrate
  | bmEnumerateFailed (status : Nat)
  | bmEnumerateOutOfSpace
  | noBusmustChannels
  | busmustChannelOutOfRange
  | channelLacksCan
  | bmOpenExFailed (status : Nat)
  | bmGetNotificationFailed (status : Nat)
  | invalidPcanChannel
  | unsupportedPcanBitrate
  | canInitFailed (status : Nat)
deriving DecidableEq, Repr

/-- Abstract Busmust SDK environment: the outcomes of the external calls
the constructor may make.  `enumStatus`/`enumCount` give, for a call with
a given buffer capacity, the returned status and the count written to
`enumerated`; `channelAt` gives the enumerated channel data. -/
structure BusmustEnv where
  initStatus : Nat
  enumStatus : Nat → Nat
  enumCount : Nat → Nat
  channelAt : Nat → BM_ChannelInfo
  openStatus : Nat
  openHandleNull : Bool
  notifStatus : Nat
  notifNull : Bool

/-- Models the enumeration retry loop (`ace_can.cpp:196-219`): up to 4
attempts; the buffer capacity starts at 16 (from `channels.reserve(16)`)
and doubles after an attempt that reports more channels than fit.
Returns the final `status`, `some count` when `enumeration_success` was
set, and the trace of `BM_Enumerate` calls. -/
def busmustEnumLoop (env : BusmustEnv) : Nat → Nat → Nat × Option Nat × List Call
  | 0, _ => (BM_ERROR_OK, none, [])
  | attempts + 1, capacity =>
    let status := env.enumStatus capacity
    let count := env.enumCount capacity
    if status ≠ BM_ERROR_OK then (status, none, [Call.bmEnumerate capacity])
    else if count ≤ capacity then (status, some count, [Call.bmEnumerate capacity])
    else
      let rest := busmustEnumLoop env attempts (capacity * 2)
      (rest.1, rest.2.1, Call.bmEnumerate capacity :: rest.2.2)

/-- The backend calls of `cleanup_and_throw` (`ace_can.cpp:164-178`):
close the handle when one was opened; when `busmust_registered_`, the
decrement `g_busmust_instance_count.fetch_sub(1)` returns `refCount + 1`
(the count after this constructor's increment), so `BM_UnInit` runs
exactly when `refCount = 0`. -/
def busmustCleanupCalls (handleOpen : Bool) (refCount : Nat) : List Call :=
  (if handleOpen then [Call.bmClose] else []) ++
    (if refCount = 0 then [Call.bmUnInit] else [])

/-- Models the Busmust branch of the constructor (`ace_can.cpp:158-271`).
`refCount` is the value of the global `g_busmust_instance_count` before
this constructor's `fetch_add`.  Returns the result and the ordered trace
of backend calls. -/
def busmustOpen (env : BusmustEnv) (refCount : Nat) (channel bitrate : Int) :
    Except OpenError Unit × List Call :=
  if channel < 0 then (.error .channelNegative, [])
  else
    let initCalls := if refCount = 0 then [Call.bmInit] else []
    if refCount = 0 ∧ env.initStatus ≠ BM_ERROR_OK then
      (.error (.bmInitFailed env.initStatus), initCalls)
    else
      match BuildBusmustBitrate bitrate with
      | none =>
        (.error .unsupportedBusmustBitrate,
         initCalls ++ busmustCleanupCalls false refCount)
      | some _ =>
        let enumRes := busmustEnumLoop env 4 16
        let pre := initCalls ++ enumRes.2.2
        if enumRes.1 ≠ BM_ERROR_OK then
          (.error (.bmEnumerateFailed enumRes.1),
           pre ++ busmustCleanupCalls false refCount)
        else
          match enumRes.2.1 with
          | none =>
            (.error .bmEnumerateOutOfSpace, pre ++ busmustCleanupCalls false refCount)
          | some count =>
            if count = 0 then
              (.error .noBusmustChannels, pre ++ busmustCleanupCalls false refCount)
            else if count ≤ channel.toNat then
              (.error .busmustChannelOutOfRange,
               pre ++ busmustCleanupCalls false refCount)
            else if ¬ BusmustSupportsCan (env.channelAt channel.toNat) then
              (.error .channelLacksCan, pre ++ busmustCleanupCalls false refCount)
            else if env.openStatus ≠ BM_ERROR_OK ∨ env.openHandleNull then
              (.error (.bmOpenExFailed env.openStatus),
               pre ++ [Call.bmOpenEx] ++ busmustCleanupCalls false refCount)
            else if env.notifStatus ≠ BM_ERROR_OK ∨ env.notifNull then
              (.error (.bmGetNotificationFailed env.notifStatus),
               pre ++ [Call.bmOpenEx, Call.bmGetNotification] ++
                 busmustCleanupCalls true refCount)
            else
              (.ok (), pre ++ [Call.bmOpenEx, Call.bmGetNotification])

/-- Abstract PCAN SDK environment. -/
structure PcanEnv where
  initStatus : Nat
  getValueStatus : Nat
  eventFd : Int

/-- Models the PCAN branch of the constructor (`ace_can.cpp:272-307`,
POSIX variant): resolve the channel handle first, then map the bitrate,
then call `CAN_Initialize`, then acquire the optional receive-event file
descriptor via `CAN_GetValue` (whose failure does not fail the open). -/
def pcanOpen (env : PcanEnv) (channel bitrate : Int) :
    Except OpenError Unit × List Call :=
  let resolved := ResolvePcanChannelHandle channel
  if resolved = PCAN_NONEBUS then (.error .invalidPcanChannel, [])
  else
    let baud := MapPcanBaudrate bitrate
    if baud = 0 then (.error .unsupportedPcanBitrate, [])
    else if env.initStatus ≠ PCAN_ERROR_OK then
      (.error (.canInitFailed env.initStatus), [Call.canInit resolved baud])
    else
      (.ok (), [Call.canInit resolved baud, Call.canGetValueRecvEvent])

/-! ### Background receive loop (`CANBus::StartReceiveThread`,
`ace_can.cpp:451-588`)

One outer-loop iteration ("cycle") is: wait for readiness, then drain the
backend queue.  The drain is modelled as a function over the finite list
of successive backend read outcomes it inspects; it returns the events it
produced (frame deliveries to the message sink, error-sink events, backoff
sleeps) and whether `recv_running_` is still true afterwards.  `EmitError`
(`ace_can.cpp:617-628`) delivers to the error sink only when one is
registered. -/

/-- One `BM_ReadCanMessage` / `CAN_Read` outcome, together with the result
of the `tsfn_message_.BlockingCall` that a successful read triggers
(`deliverOk = false` models a failed threadsafe-function call). -/
structure ReadOutcome (α : Type) where
  status : Nat
  msg : α
  deliverOk : Bool

/-- Events observable from the receive worker. -/
inductive REv
  | deliver (m : NeutralMsg)
  | errorEvent (code : Nat) (text : String)
  | sleepMs (n : Nat)
deriving DecidableEq, Repr

/-- Models the Busmust drain loop (`ace_can.cpp:480-508`): `BM_ERROR_OK`
delivers the decoded frame to the message sink (a failed `BlockingCall`
sets `recv_running_ = false` and breaks); `BM_ERROR_QRCVEMPTY` breaks the
drain; any other status is passed to `EmitError` with its translated text,
then the loop sleeps 10 ms and breaks. -/
def busmustDrain (lookup : Nat → String) (hasMsgSink hasErrSink : Bool) :
    List (ReadOutcome BM_CanMessageRx) → List REv × Bool
  | [] => ([], true)
  | r :: rest =>
    if r.status = BM_ERROR_OK then
      if hasMsgSink then
        if r.deliverOk then
          let next := busmustDrain lookup hasMsgSink hasErrSink rest
          (REv.deliver (decodeBusmust r.msg) :: next.1, next.2)
        else ([], false)
      else busmustDrain lookup hasMsgSink hasErrSink rest
    else if r.status = BM_ERROR_QRCVEMPTY then ([], true)
    else
      ((if hasErrSink then
          [REv.errorEvent r.status (BusmustStatusToString lookup r.status)]
        else []) ++ [REv.sleepMs 10], true)

/-- Models the PCAN drain loop (`ace_can.cpp:552-582`): like the Busmust
drain, except that `PCAN_ERROR_QRCVEMPTY` sleeps 2 ms before breaking. -/
def pcanDrain (lookup : Nat → Option String) (hasMsgSink hasErrSink : Bool) :
    List (ReadOutcome TPCANMsg) → List REv × Bool
  | [] => ([], true)
  | r :: rest =>
    if r.status = PCAN_ERROR_OK then
      if hasMsgSink then
        if r.deliverOk then
          let next := pcanDrain lookup hasMsgSink hasErrSink rest
          (REv.deliver (decodePcan r.msg) :: next.1, next.2)
        else ([], false)
      else pcanDrain lookup hasMsgSink hasErrSink rest
    else if r.status = PCAN_ERROR_QRCVEMPTY then ([REv.sleepMs 2], true)
    else
      ((if hasErrSink then
          [REv.errorEvent r.status (PcanStatusToString lookup r.status)]
        else []) ++ [REv.sleepMs 10], true)

/-- Models one Busmust outer-loop iteration (`ace_can.cpp:457-508`): idle
when the session is not open or the handle is null; with a notification
handle, `BM_WaitForNotifications(handles, 1, 50)` returning a negative
`waitResult` just `continue`s to the next cycle (no drain, no event, the
worker keeps running); without one, sleep 5 ms and drain. -/
def busmustCycle (lookup : Nat → String) (isOpen hasHandle hasNotif : Bool)
    (waitResult : Int) (hasMsgSink hasErrSink : Bool)
    (reads : List (ReadOutcome BM_CanMessageRx)) : List REv × Bool :=
  if ¬ isOpen then ([REv.sleepMs 20], true)
  else if ¬ hasHandle then ([REv.sleepMs 20], true)
  else if hasNotif then
    if waitResult < 0 then ([], true)
    else busmustDrain lookup hasMsgSink hasErrSink reads
  else
    let next := busmustDrain lookup hasMsgSink hasErrSink reads
    (REv.sleepMs 5 :: next.1, next.2)

/-- The outcome of the `poll` on the PCAN receive-event descriptor
(`ace_can.cpp:531-546`, POSIX branch): the return value, whether
`POLLIN` was reported, and the `errno` value when negative. -/
structure PollOutcome where
  result : Int
  pollin : Bool
  errnoVal : Nat
deriving DecidableEq, Repr

/-- The POSIX `EINTR` errno value. -/
def EINTR : Nat := 4

/-- Models one PCAN outer-loop iteration (`ace_can.cpp:509-582`, POSIX
branch): idle when not open or the handle is `PCAN_NONEBUS`; without a
receive-event descriptor, `ready` starts true (polling fallback); with
one, `poll` decides readiness — a strictly negative result with
`errno != EINTR` is passed to `EmitError` and backed off by a 10 ms
sleep, but the worker keeps running. -/
def pcanCycle (lookup : Nat → Option String) (isOpen hasHandle hasFd : Bool)
    (poll : PollOutcome) (hasMsgSink hasErrSink : Bool)
    (reads : List (ReadOutcome TPCANMsg)) : List REv × Bool :=
  if ¬ isOpen then ([REv.sleepMs 20], true)
  else if ¬ hasHandle then ([REv.sleepMs 20], true)
  else if ¬ hasFd then pcanDrain lookup hasMsgSink hasErrSink reads
  else if 0 < poll.result ∧ poll.pollin then
    pcanDrain lookup hasMsgSink hasErrSink reads
  else if poll.result = 0 ∨ (poll.result < 0 ∧ poll.errnoVal = EINTR) then
    ([], true)
  else if poll.result < 0 then
    ((if hasErrSink then
        [REv.errorEvent poll.errnoVal "PCAN receive event poll failed"]
      else []) ++ [REv.sleepMs 10], true)
  else ([], true)

/-! ### Session teardown (`CANBus::StopReceiveThread` / `CANBus::Close`,
`ace_can.cpp:590-615`, `647-675`)

Teardown is modelled as a state machine over the session's fields,
emitting the ordered trace of its actions.  The POSIX build is modelled
(`DetachPcanEvent` only resets `pcan_event_fd_`; the Windows-only
`SetEvent` in `StopReceiveThread` does not exist). -/

/-- The `bustype_` string, after normalization at construction. -/
inductive Bustype
  | busmust
  | pcan
  | other
deriving DecidableEq, Repr

/-- The session fields teardown reads and writes, plus the global
`g_busmust_instance_count` (its value before the call). -/
structure SessionState where
  bustype : Bustype
  isOpen : Bool
  recvRunning : Bool
  threadJoinable : Bool
  hasMsgSink : Bool
  hasErrSink : Bool
  hasCloseSink : Bool
  bmHandle : Bool
  bmNotif : Bool
  busmustRegistered : Bool
  pcanHandle : Bool
  pcanEventFd : Bool
  busmustRefCount : Nat
deriving DecidableEq, Repr

/-- Teardown actions, in the order the source performs them. -/
inductive TEv
  | setStopFlag
  | joinWorker
  | releaseMsgSink
  | releaseErrSink
  | emitCloseEvent
  | releaseCloseSink
  | bmClose
  | bmUnInit
  | decBusmustRefCount
  | detachPcanEvent
  | canUninit
deriving DecidableEq, Repr

/-- Models `CANBus::StopReceiveThread` (`ace_can.cpp:590-615`): clear
`recv_running_`, join the worker thread when it is joinable, release the
message and error sinks, then deliver a close event to the close sink (if
registered) and release it. -/
def stopReceiveThread (s : SessionState) : SessionState × List TEv :=
  let s1 := { s with recvRunning := false }
  let joinT : List TEv := if s1.threadJoinable then [TEv.joinWorker] else []
  let s2 := { s1 with threadJoinable := false }
  let msgT : List TEv := if s2.hasMsgSink then [TEv.releaseMsgSink] else []
  let s3 := { s2 with hasMsgSink := false }
  let errT : List TEv := if s3.hasErrSink then [TEv.releaseErrSink] else []
  let s4 := { s3 with hasErrSink := false }
  let closeT : List TEv :=
    if s4.hasCloseSink then [TEv.emitCloseEvent, TEv.releaseCloseSink] else []
  let s5 := { s4 with hasCloseSink := false }
  (s5, TEv.setStopFlag :: (joinT ++ msgT ++ errT ++ closeT))

/-- Models `CANBus::Close` (`ace_can.cpp:647-675`): always run
`StopReceiveThread` first; return early when `is_open_` is already false;
otherwise release the backend resources of the selected bustype
(`BM_Close` when the handle is set, then the reference-counted decrement
with `BM_UnInit` at zero; or `DetachPcanEvent` then `CAN_Uninitialize`)
and clear `is_open_`. -/
def close (s : SessionState) : SessionState × List TEv :=
  let stop := stopReceiveThread s
  let s1 := stop.1
  if ¬ s1.isOpen then (s1, stop.2)
  else
    match s1.bustype with
    | Bustype.busmust =>
      let handleT : List TEv := if s1.bmHandle then [TEv.bmClose] else []
      let s2 := { s1 with bmHandle := false, bmNotif := false }
      let regT : List TEv :=
        if s2.busmustRegistered then
          TEv.decBusmustRefCount ::
            (if s2.busmustRefCount = 1 then [TEv.bmUnInit] else [])
        else []
      let s3 := { s2 with
                  busmustRegistered := false,
                  busmustRefCount :=
                    if s2.busmustRegistered then s2.busmustRefCount - 1
                    else s2.busmustRefCount }
      ({ s3 with isOpen := false }, stop.2 ++ handleT ++ regT)
    | Bustype.pcan =>
      let fdT : List TEv := if s1.pcanEventFd then [TEv.detachPcanEvent] else []
      let s2 := { s1 with pcanEventFd := false }
      let handleT : List TEv := if s2.pcanHandle then [TEv.canUninit] else []
      let s3 := { s2 with pcanHandle := false }
      ({ s3 with isOpen := false }, stop.2 ++ fdT ++ handleT)
    | Bustype.other => ({ s1 with isOpen := false }, stop.2)

/-- Whether a teardown action releases the native backend handle
(`BM_Close` / `CAN_Uninitialize`). -/
def isHandleRelease : TEv → Bool
  | TEv.bmClose => true
  | TEv.canUninit => true
  | _ => false

/-- Scans a teardown trace: `true` iff no handle-release action occurs
before the first `joinWorker` (vacuously `true` when neither occurs
before the end). -/
def noReleaseBeforeJoin : List TEv → Bool
  | [] => true
  | e :: rest =>
    if e = TEv.joinWorker then true
    else if isHandleRelease e then false
    else noReleaseBeforeJoin rest

/-! ### Helper lemmas -/

/-- Encoding ignores payload bytes beyond the Busmust maximum of 64. -/
theorem encodeBusmust_take_eq (id : Nat) (data : List Nat) :
    encodeBusmust id (data.take 64) = encodeBusmust id data := by
  have h1 : min (data.take 64).length 64 = min data.length 64 := by
    simp [List.length_take]
    omega
  simp only [encodeBusmust, h1, List.take_take]
  have h2 : min (min data.length 64) 64 = min data.length 64 := by omega
  rw [h2]

/-- Encoding ignores payload bytes beyond the PCAN maximum of 8. -/
theorem encodePcan_take_eq (id : Nat) (data : List Nat) :
    encodePcan id (data.take 8) = encodePcan id data := by
  have h1 : min (data.take 8).length 8 = min data.length 8 := by
    simp [List.length_take]
    omega
  simp only [encodePcan, h1, List.take_take]
  have h2 : min (min data.length 8) 8 = min data.length 8 := by omega
  rw [h2]

/-! ### Claims -/

/-- Claim C3: the encoder selects extended-ID encoding iff the id exceeds
0x7FF (standard encoding otherwise), clamps the payload to the backend
maximum (64 bytes for Busmust, 8 for PCAN) silently — encoding a longer
buffer equals encoding its truncation, with the payload length field
clamped — and leaves the remote/FD/bitrate-switch/error-state flags
unset, on both backends. -/
theorem encode_extended_iff_clamp_flags_unset (id : Nat) (data : List Nat) :
    ((encodeBusmust id data).ctrl.IDE = 1 ↔ 0x7FF < id) ∧
    ((encodeBusmust id data).ctrl.IDE = 0 ↔ id ≤ 0x7FF) ∧
    encodeBusmust id data = encodeBusmust id (data.take 64) ∧
    (encodeBusmust id data).ctrl.RTR = 0 ∧
    (encodeBusmust id data).ctrl.FDF = 0 ∧
    (encodeBusmust id data).ctrl.BRS = 0 ∧
    (encodeBusmust id data).ctrl.ESI = 0 ∧
    ((encodePcan id data).MSGTYPE = PCAN_MESSAGE_EXTENDED ↔ 0x7FF < id) ∧
    ((encodePcan id data).MSGTYPE = PCAN_MESSAGE_STANDARD ↔ id ≤ 0x7FF) ∧
    encodePcan id data = encodePcan id (data.take 8) ∧
    (encodePcan id data).LEN = min data.length 8 ∧
    (encodePcan id data).MSGTYPE &&& PCAN_MESSAGE_RTR = 0 ∧
    (encodePcan id data).MSGTYPE &&& PCAN_MESSAGE_FD = 0 ∧
    (encodePcan id data).MSGTYPE &&& PCAN_MESSAGE_BRS = 0 ∧
    (encodePcan id data).MSGTYPE &&& PCAN_MESSAGE_ESI = 0 := by
  refine ⟨?_, ?_, (encodeBusmust_take_eq id data).symm, ?_, ?_, ?_, ?_,
    ?_, ?_, (encodePcan_take_eq id data).symm, ?_, ?_, ?_, ?_, ?_⟩
  · simp only [encodeBusmust]
    split <;> omega
  · simp only [encodeBusmust]
    split <;> omega
  · rfl
  · rfl
  · rfl
  · rfl
  · simp only [encodePcan, PCAN_MESSAGE_EXTENDED, PCAN_MESSAGE_STANDARD]
    split <;> omega
  · simp only [encodePcan, PCAN_MESSAGE_EXTENDED, PCAN_MESSAGE_STANDARD]
    split <;> omega
  · simp only [encodePcan]
    omega
  · simp only [encodePcan, PCAN_MESSAGE_EXTENDED, PCAN_MESSAGE_STANDARD,
      PCAN_MESSAGE_RTR]
    split <;> rfl
  · simp only [encodePcan, PCAN_MESSAGE_EXTENDED, PCAN_MESSAGE_STANDARD,
      PCAN_MESSAGE_FD]
    split <;> rfl
  · simp only [encodePcan, PCAN_MESSAGE_EXTENDED, PCAN_MESSAGE_STANDARD,
      PCAN_MESSAGE_BRS]
    split <;> rfl
  · simp only [encodePcan, PCAN_MESSAGE_EXTENDED, PCAN_MESSAGE_STANDARD,
      PCAN_MESSAGE_ESI]
    split <;> rfl

/-- Claim C4: the decoder derives the extended flag and the arbitration id
strictly from the native control fields (the Busmust `IDE` bit, the PCAN
`MSGTYPE` extended bit) — in particular the extended flag is a function of
the control field alone, never of the id's magnitude — and clamps the
reported length to the backend maximum (64 for Busmust, 8 for PCAN)
before copying payload bytes. -/
theorem decode_strictly_from_native_fields (mB : BM_CanMessageRx) (mP : TPCANMsg) :
    (busmustRxExtended mB = true ↔ mB.ctrl.IDE ≠ 0) ∧
    (∀ mB' : BM_CanMessageRx, mB'.ctrl = mB.ctrl →
      busmustRxExtended mB' = busmustRxExtended mB) ∧
    ((decodeBusmust mB).id =
      if busmustRxExtended mB then (mB.id.SID <<< 18) ||| mB.id.EID else mB.id.SID) ∧
    (decodeBusmust mB).data = mB.payload.take (min mB.ctrl.DLC 64) ∧
    (decodeBusmust mB).data.length ≤ 64 ∧
    (pcanRxExtended mP = true ↔ mP.MSGTYPE &&& PCAN_MESSAGE_EXTENDED ≠ 0) ∧
    (∀ mP' : TPCANMsg, mP'.MSGTYPE = mP.MSGTYPE →
      pcanRxExtended mP' = pcanRxExtended mP) ∧
    ((decodePcan mP).id = if pcanRxExtended mP then mP.ID else mP.ID &&& 0x7FF) ∧
    (decodePcan mP).data = mP.DATA.take (min mP.LEN 8) ∧
    (decodePcan mP).data.length ≤ 8 := by
  refine ⟨?_, ?_, rfl, rfl, ?_, ?_, ?_, rfl, rfl, ?_⟩
  · simp [busmustRxExtended]
  · intro mB' h
    simp [busmustRxExtended, h]
  · simp only [decodeBusmust, List.length_take]
    omega
  · simp [pcanRxExtended]
  · intro mP' h
    simp [pcanRxExtended, h]
  · simp only [decodePcan, List.length_take]
    omega

/-- Claim C5, counterexample: at the concrete call `send({id: 0x123, data:
[1,2,3]}, 5)` the Busmust backend write is invoked with timeout 100, not
the caller-supplied 5, and the PCAN backend write call carries no timeout
argument at all — the caller-supplied `timeout_ms` is not passed through. -/
theorem send_timeout_not_passed_cex :
    writeTimeoutArg (sendBusmust 0x123 [1, 2, 3] 5) = some 100 ∧
    writeTimeoutArg (sendBusmust 0x123 [1, 2, 3] 5) ≠ some 5 ∧
    writeTimeoutArg (sendPcan 0x123 [1, 2, 3] 5) = none := by
  refine ⟨rfl, ?_, rfl⟩
  simp [sendBusmust, writeTimeoutArg]

/-- Claim C5, amended: `send` has no effective timeout argument — any
caller-supplied `timeout_ms` is ignored; the Busmust backend write is
always invoked with the fixed timeout 100 ms, and the PCAN backend write
call (`CAN_Write`) takes no timeout argument. -/
theorem send_timeout_fixed (id : Nat) (data : List Nat) (timeoutMs : Int) :
    writeTimeoutArg (sendBusmust id data timeoutMs) = some 100 ∧
    writeTimeoutArg (sendPcan id data timeoutMs) = none :=
  ⟨rfl, rfl⟩

/-- Claim C10: for every bitrate that is a positive multiple of 1000 at or
above 65 536 000 bps (within the 32-bit `int` range), the Busmust mapper
stores `(bitrate / 1000) mod 65536` as the kbps value: the bitrate is
rejected exactly when `bitrate / 1000` is a multiple of 65536, and when
accepted the stored kbps value is wrapped and differs from the requested
`bitrate / 1000`. -/
theorem busmust_bitrate_wraps (bitrate : Int)
    (h1 : bitrate % 1000 = 0) (h2 : 65536000 ≤ bitrate)
    (h3 : bitrate ≤ 2147483647) :
    (BuildBusmustBitrate bitrate = none ↔ (bitrate / 1000) % 65536 = 0) ∧
    ∀ cfg, BuildBusmustBitrate bitrate = some cfg →
      (cfg.nbitrate : Int) = (bitrate / 1000) % 65536 ∧
      (cfg.nbitrate : Int) ≠ bitrate / 1000 := by
  have hcond : ¬ (bitrate ≤ 0 ∨ bitrate % 1000 ≠ 0) := by omega
  by_cases hnb : (bitrate / 1000).toNat % 65536 = 0
  · constructor
    · simp [BuildBusmustBitrate, hcond, hnb]
      omega
    · intro cfg hcfg
      simp [BuildBusmustBitrate, hcond, hnb] at hcfg
  · constructor
    · simp [BuildBusmustBitrate, hcond, hnb]
      omega
    · intro cfg hcfg
      simp [BuildBusmustBitrate, hcond, hnb] at hcfg
      obtain ⟨-, hc⟩ := hcfg
      have hnb2 : cfg.nbitrate = (bitrate / 1000).toNat % 65536 := by rw [← hc]
      constructor
      · rw [hnb2]
        omega
      · rw [hnb2]
        omega

/-- Claim C10, witness: the concrete bitrate 65 537 000 bps satisfies the
hypotheses and is accepted with the wrapped kbps value 1 instead of
65537. -/
theorem busmust_bitrate_wraps_witness :
    ((65537000 : Int) % 1000 = 0 ∧ (65536000 : Int) ≤ 65537000 ∧
      (65537000 : Int) ≤ 2147483647) ∧
    ((BuildBusmustBitrate 65537000 = none ↔ ((65537000 : Int) / 1000) % 65536 = 0) ∧
      ∀ cfg, BuildBusmustBitrate 65537000 = some cfg →
        (cfg.nbitrate : Int) = ((65537000 : Int) / 1000) % 65536 ∧
        (cfg.nbitrate : Int) ≠ (65537000 : Int) / 1000) :=
  ⟨by norm_num,
   busmust_bitrate_wraps 65537000 (by norm_num) (by norm_num) (by norm_num)⟩

/-- A concrete all-successful Busmust environment, used to instantiate
hypotheses of the open-path theorems. -/
def envBOk : BusmustEnv :=
  { initStatus := BM_ERROR_OK
    enumStatus := fun _ => BM_ERROR_OK
    enumCount := fun _ => 1
    channelAt := fun _ => { cap := BM_CAN_CAP }
    openStatus := BM_ERROR_OK
    openHandleNull := false
    notifStatus := BM_ERROR_OK
    notifNull := false }

/-- A concrete all-successful PCAN environment. -/
def envPOk : PcanEnv :=
  { initStatus := PCAN_ERROR_OK, getValueStatus := PCAN_ERROR_OK, eventFd := 3 }

/-- A bitrate outside the PCAN enumerated set maps to the 0 sentinel. -/
theorem mapPcanBaudrate_eq_zero (bitrate : Int)
    (h : bitrate ∉ pcanSupportedBitrates) : MapPcanBaudrate bitrate = 0 := by
  simp only [pcanSupportedBitrates, List.mem_cons, List.not_mem_nil, or_false,
    not_or] at h
  simp [MapPcanBaudrate, h.1, h.2.1, h.2.2.1, h.2.2.2.1, h.2.2.2.2.1,
    h.2.2.2.2.2.1, h.2.2.2.2.2.2.1, h.2.2.2.2.2.2.2.1, h.2.2.2.2.2.2.2.2.1,
    h.2.2.2.2.2.2.2.2.2.1, h.2.2.2.2.2.2.2.2.2.2.1, h.2.2.2.2.2.2.2.2.2.2.2.1,
    h.2.2.2.2.2.2.2.2.2.2.2.2.1, h.2.2.2.2.2.2.2.2.2.2.2.2.2]

/-- A bitrate that is not a positive multiple of 1000 is rejected by the
Busmust bitrate builder. -/
theorem buildBusmustBitrate_none (bitrate : Int)
    (h : ¬ (0 < bitrate ∧ bitrate % 1000 = 0)) :
    BuildBusmustBitrate bitrate = none := by
  have hc : bitrate ≤ 0 ∨ bitrate % 1000 ≠ 0 := by omega
  simp only [BuildBusmustBitrate, if_pos hc]

/-- Claim C2: for every bitrate outside the backend's supported set (for
Busmust: any `bitrateB` that is not a positive multiple of 1000 bps; for
PCAN: any `bitrateP` not among the fixed enumerated rates — the two
bitrates are quantified independently, so each backend's case is covered
on its own), open fails with the unsupported-bitrate error and the
backend open call (`BM_OpenEx` / `CAN_Initialize`) is never invoked, for
any backend environment, any valid channel, and any reference count
(assuming, for Busmust, that the process-wide init that precedes the
bitrate check succeeds). -/
theorem unsupported_bitrate_rejected_before_open
    (envB : BusmustEnv) (envP : PcanEnv) (refCount : Nat)
    (chB chP bitrateB bitrateP : Int)
    (hch : 0 ≤ chB) (hinit : envB.initStatus = BM_ERROR_OK)
    (hbadB : ¬ (0 < bitrateB ∧ bitrateB % 1000 = 0))
    (hchP : ResolvePcanChannelHandle chP ≠ PCAN_NONEBUS)
    (hbadP : bitrateP ∉ pcanSupportedBitrates) :
    (busmustOpen envB refCount chB bitrateB).1 =
      .error .unsupportedBusmustBitrate ∧
    Call.bmOpenEx ∉ (busmustOpen envB refCount chB bitrateB).2 ∧
    (pcanOpen envP chP bitrateP).1 = .error .unsupportedPcanBitrate ∧
    ∀ h b, Call.canInit h b ∉ (pcanOpen envP chP bitrateP).2 := by
  have hmap := mapPcanBaudrate_eq_zero bitrateP hbadP
  have hbuild := buildBusmustBitrate_none bitrateB hbadB
  have hch' : ¬ chB < 0 := by omega
  have hinit' : ¬ (refCount = 0 ∧ envB.initStatus ≠ BM_ERROR_OK) := by
    simp [hinit]
  refine ⟨?_, ?_, ?_, ?_⟩
  · simp [busmustOpen, hch', hinit', hbuild]
  · simp only [busmustOpen, if_neg hch', if_neg hinit', hbuild]
    rcases Nat.eq_zero_or_pos refCount with h0 | h0
    · simp [h0, busmustCleanupCalls]
    · have : ¬ refCount = 0 := by omega
      simp [this, busmustCleanupCalls]
  · simp [pcanOpen, hchP, hmap]
  · intro h b
    simp [pcanOpen, hchP, hmap]

/-- Claim C2, witness: bitrate 83333 on Busmust channel 0 (unsupported
there — not a multiple of 1000 — although it is in the PCAN enumerated
set) and bitrate 300000 on PCAN channel 1 (unsupported there — not in
the enumerated set — although it is a positive multiple of 1000 and so
Busmust-supported): each backend's open fails with the
unsupported-bitrate error without a backend open call. -/
theorem unsupported_bitrate_rejected_before_open_witness :
    ((0 : Int) ≤ 0 ∧ envBOk.initStatus = BM_ERROR_OK ∧
      ¬ ((0 : Int) < 83333 ∧ (83333 : Int) % 1000 = 0) ∧
      ResolvePcanChannelHandle 1 ≠ PCAN_NONEBUS ∧
      (300000 : Int) ∉ pcanSupportedBitrates) ∧
    ((busmustOpen envBOk 0 0 83333).1 = .error .unsupportedBusmustBitrate ∧
      Call.bmOpenEx ∉ (busmustOpen envBOk 0 0 83333).2 ∧
      (pcanOpen envPOk 1 300000).1 = .error .unsupportedPcanBitrate ∧
      ∀ h b, Call.canInit h b ∉ (pcanOpen envPOk 1 300000).2) :=
  ⟨⟨by norm_num, rfl, by decide, by decide, by decide⟩,
   unsupported_bitrate_rejected_before_open envBOk envPOk 0 0 1 83333 300000
     (by norm_num) rfl (by decide) (by decide) (by decide)⟩

/-- Claim C6, counterexample: at the concrete PCAN open with channel 0
(invalid) and bitrate 12345 (unsupported), the reported failure is the
invalid-channel error, not the unsupported-bitrate error, and no backend
call is made — so channel resolution runs before bitrate mapping on the
PCAN backend, contradicting the claimed order (and PCAN opening performs
no process-wide init step at all). -/
theorem pcan_open_order_cex :
    (pcanOpen envPOk 0 12345).1 = .error .invalidPcanChannel ∧
    OpenError.invalidPcanChannel ≠ OpenError.unsupportedPcanBitrate ∧
    (pcanOpen envPOk 0 12345).2 = [] ∧
    MapPcanBaudrate 12345 = 0 :=
  ⟨rfl, by decide, rfl, by decide⟩

/-- Claim C6, amended: Busmust opening performs, in order, (1) the
reference-counted process-wide init when this is the first concurrent
session, (2) bitrate mapping (so an unsupported bitrate prevents any
enumeration or open call), (3) channel resolution via enumeration,
(4) the backend open call, (5) notification-handle acquisition; PCAN
opening instead performs channel resolution before bitrate mapping,
then the backend open call, then the optional receive-event acquisition,
with no process-wide init step. -/
theorem open_step_order (envB : BusmustEnv) (envP : PcanEnv)
    (chB chP bitrate : Int) (count : Nat)
    (hch : 0 ≤ chB) (hinitB : envB.initStatus = BM_ERROR_OK)
    (hbr : BuildBusmustBitrate bitrate ≠ none)
    (henumS : envB.enumStatus 16 = BM_ERROR_OK)
    (henumC : envB.enumCount 16 = count) (hcount : count ≤ 16)
    (hrange : chB.toNat < count)
    (hcap : BusmustSupportsCan (envB.channelAt chB.toNat) = true)
    (hopen : envB.openStatus = BM_ERROR_OK) (hhandle : envB.openHandleNull = false)
    (hnotif : envB.notifStatus = BM_ERROR_OK) (hnnull : envB.notifNull = false)
    (hchP : ResolvePcanChannelHandle chP ≠ PCAN_NONEBUS)
    (hbrP : MapPcanBaudrate bitrate ≠ 0) (hinitP : envP.initStatus = PCAN_ERROR_OK) :
    (busmustOpen envB 0 chB bitrate).2 =
      [Call.bmInit, Call.bmEnumerate 16, Call.bmOpenEx, Call.bmGetNotification] ∧
    (∀ br, ¬ (0 < br ∧ br % 1000 = 0) →
      ∀ c, Call.bmEnumerate c ∉ (busmustOpen envB 0 chB br).2) ∧
    (∀ ch br, (pcanOpen envP ch br).1 = .error .invalidPcanChannel →
      (pcanOpen envP ch br).2 = []) ∧
    pcanOpen envP chP bitrate =
      (.ok (), [Call.canInit (ResolvePcanChannelHandle chP)
                  (MapPcanBaudrate bitrate), Call.canGetValueRecvEvent]) ∧
    ∀ ch br, Call.bmInit ∉ (pcanOpen envP ch br).2 := by
  have hch' : ¬ chB < 0 := by omega
  have hcnt' : ¬ count = 0 := by omega
  have hrange' : ¬ count ≤ chB.toNat := by omega
  refine ⟨?_, ?_, ?_, ?_, ?_⟩
  · obtain ⟨cfg, hcfg⟩ := Option.ne_none_iff_exists'.mp hbr
    simp [busmustOpen, hch', hinitB, hcfg, busmustEnumLoop, henumS, henumC,
      hcount, hcnt', hrange', hcap, hopen, hhandle, hnotif, hnnull]
  · intro br hbad c
    have hbuild := buildBusmustBitrate_none br hbad
    have hinit' : ¬ ((0 : Nat) = 0 ∧ envB.initStatus ≠ BM_ERROR_OK) := by
      simp [hinitB]
    simp [busmustOpen, hch', hinit', hbuild, busmustCleanupCalls, hinitB]
  · intro ch br hres
    by_cases h0 : ResolvePcanChannelHandle ch = PCAN_NONEBUS
    · simp [pcanOpen, h0]
    · by_cases h1 : MapPcanBaudrate br = 0
      · simp [pcanOpen, h0, h1] at hres
      · by_cases h2 : envP.initStatus = PCAN_ERROR_OK
        · simp [pcanOpen, h0, h1, h2] at hres
        · simp [pcanOpen, h0, h1, h2] at hres
  · simp [pcanOpen, hchP, hbrP, hinitP]
  · intro ch br
    by_cases h0 : ResolvePcanChannelHandle ch = PCAN_NONEBUS
    · simp [pcanOpen, h0]
    · by_cases h1 : MapPcanBaudrate br = 0
      · simp [pcanOpen, h0, h1]
      · by_cases h2 : envP.initStatus = PCAN_ERROR_OK
        · simp [pcanOpen, h0, h1, h2]
        · simp [pcanOpen, h0, h1, h2]

/-- Claim C6, witness: the amended order theorem instantiated at the
all-successful environments, Busmust channel 0, PCAN channel 1, bitrate
500000. -/
theorem open_step_order_witness :
    ((0 : Int) ≤ 0 ∧ envBOk.initStatus = BM_ERROR_OK ∧
      BuildBusmustBitrate 500000 ≠ none ∧
      envBOk.enumStatus 16 = BM_ERROR_OK ∧ envBOk.enumCount 16 = 1 ∧
      (1 : Nat) ≤ 16 ∧ (0 : Int).toNat < 1 ∧
      BusmustSupportsCan (envBOk.channelAt (0 : Int).toNat) = true ∧
      envBOk.openStatus = BM_ERROR_OK ∧ envBOk.openHandleNull = false ∧
      envBOk.notifStatus = BM_ERROR_OK ∧ envBOk.notifNull = false ∧
      ResolvePcanChannelHandle 1 ≠ PCAN_NONEBUS ∧
      MapPcanBaudrate 500000 ≠ 0 ∧ envPOk.initStatus = PCAN_ERROR_OK) ∧
    ((busmustOpen envBOk 0 0 500000).2 =
      [Call.bmInit, Call.bmEnumerate 16, Call.bmOpenEx, Call.bmGetNotification] ∧
      (∀ br, ¬ (0 < br ∧ br % 1000 = 0) →
        ∀ c, Call.bmEnumerate c ∉ (busmustOpen envBOk 0 0 br).2) ∧
      (∀ ch br, (pcanOpen envPOk ch br).1 = .error .invalidPcanChannel →
        (pcanOpen envPOk ch br).2 = []) ∧
      pcanOpen envPOk 1 500000 =
        (.ok (), [Call.canInit (ResolvePcanChannelHandle 1)
                    (MapPcanBaudrate 500000), Call.canGetValueRecvEvent]) ∧
      ∀ ch br, Call.bmInit ∉ (pcanOpen envPOk ch br).2) :=
  ⟨⟨by norm_num, rfl, by decide, rfl, rfl, by norm_num, by decide, by decide,
    rfl, rfl, rfl, rfl, by decide, by decide, rfl⟩,
   open_step_order envBOk envPOk 0 1 500000 1 (by norm_num) rfl (by decide)
     rfl rfl (by norm_num) (by decide) (by decide) rfl rfl rfl rfl
     (by decide) (by decide) rfl⟩

/-- A queue-empty status is never delivered as an error event by the
Busmust drain. -/
theorem busmustDrain_no_qempty_error (lookup : Nat → String)
    (hasMsg hasErr : Bool) :
    ∀ reads t, REv.errorEvent BM_ERROR_QRCVEMPTY t ∉
      (busmustDrain lookup hasMsg hasErr reads).1 := by
  intro reads
  induction reads with
  | nil => intro t; simp [busmustDrain]
  | cons r rest ih =>
    intro t
    simp only [busmustDrain]
    split_ifs with h1 h2 h3 h4 h5
    · simp only [List.mem_cons, not_or]
      exact ⟨by simp, ih t⟩
    · simp
    · exact ih t
    · simp
    · simp only [List.mem_append, List.mem_singleton, List.mem_cons,
        List.not_mem_nil, or_false, not_or]
      refine ⟨?_, by simp⟩
      intro hcon
      rw [REv.errorEvent.injEq] at hcon
      exact h4 hcon.1.symm
    · simp

/-- A queue-empty status is never delivered as an error event by the
PCAN drain. -/
theorem pcanDrain_no_qempty_error (lookup : Nat → Option String)
    (hasMsg hasErr : Bool) :
    ∀ reads t, REv.errorEvent PCAN_ERROR_QRCVEMPTY t ∉
      (pcanDrain lookup hasMsg hasErr reads).1 := by
  intro reads
  induction reads with
  | nil => intro t; simp [pcanDrain]
  | cons r rest ih =>
    intro t
    simp only [pcanDrain]
    split_ifs with h1 h2 h3 h4 h5
    · simp only [List.mem_cons, not_or]
      exact ⟨by simp, ih t⟩
    · simp
    · exact ih t
    · simp
    · simp only [List.mem_append, List.mem_singleton, List.mem_cons,
        List.not_mem_nil, or_false, not_or]
      refine ⟨?_, by simp⟩
      intro hcon
      rw [REv.errorEvent.injEq] at hcon
      exact h4 hcon.1.symm
    · simp

/-- A concrete Busmust native receive message. -/
def mB0 : BM_CanMessageRx :=
  { id := { SID := 0, EID := 0 }, ctrl := { DLC := 0, IDE := 0 }, payload := [] }

/-- A concrete PCAN native receive message. -/
def mP0 : TPCANMsg := { ID := 0, MSGTYPE := 0, LEN := 0, DATA := [] }

/-- Claim C7: during the background drain, a queue-empty status is never
delivered to the error sink — it only ends the current drain (on PCAN
after a 2 ms sleep) with the worker still running — while every other
non-OK read status is reported to the error sink with its code and
translated text, breaks the current drain after a 10 ms backoff sleep,
and leaves the worker running for the next readiness cycle, on both
backends. -/
theorem drain_error_policy (lookupB : Nat → String) (lookupP : Nat → Option String)
    (hasMsg : Bool) (s : Nat) (mB : BM_CanMessageRx) (mP : TPCANMsg) (dOk : Bool)
    (restB : List (ReadOutcome BM_CanMessageRx))
    (restP : List (ReadOutcome TPCANMsg))
    (hs0 : s ≠ BM_ERROR_OK) (hsq : s ≠ BM_ERROR_QRCVEMPTY) :
    (∀ reads t, REv.errorEvent BM_ERROR_QRCVEMPTY t ∉
      (busmustDrain lookupB hasMsg true reads).1) ∧
    (∀ reads t, REv.errorEvent PCAN_ERROR_QRCVEMPTY t ∉
      (pcanDrain lookupP hasMsg true reads).1) ∧
    busmustDrain lookupB hasMsg true ({ status := s, msg := mB, deliverOk := dOk } :: restB) =
      ([REv.errorEvent s (BusmustStatusToString lookupB s), REv.sleepMs 10], true) ∧
    pcanDrain lookupP hasMsg true ({ status := s, msg := mP, deliverOk := dOk } :: restP) =
      ([REv.errorEvent s (PcanStatusToString lookupP s), REv.sleepMs 10], true) ∧
    busmustDrain lookupB hasMsg true
      ({ status := BM_ERROR_QRCVEMPTY, msg := mB, deliverOk := dOk } :: restB) = ([], true) ∧
    pcanDrain lookupP hasMsg true
      ({ status := PCAN_ERROR_QRCVEMPTY, msg := mP, deliverOk := dOk } :: restP) =
      ([REv.sleepMs 2], true) := by
  have hpq : s ≠ PCAN_ERROR_OK := hs0
  have hpe : s ≠ PCAN_ERROR_QRCVEMPTY := hsq
  refine ⟨busmustDrain_no_qempty_error lookupB hasMsg true,
    pcanDrain_no_qempty_error lookupP hasMsg true, ?_, ?_, ?_, ?_⟩
  · simp [busmustDrain, hs0, hsq]
  · simp [pcanDrain, hpq, hpe]
  · simp [busmustDrain, BM_ERROR_QRCVEMPTY, BM_ERROR_OK]
  · simp [pcanDrain, PCAN_ERROR_QRCVEMPTY, PCAN_ERROR_OK]

/-- Claim C7, witness: status 5 (neither OK nor queue-empty) at the head
of a drain, with a message sink registered. -/
theorem drain_error_policy_witness :
    ((5 : Nat) ≠ BM_ERROR_OK ∧ (5 : Nat) ≠ BM_ERROR_QRCVEMPTY) ∧
    ((∀ reads t, REv.errorEvent BM_ERROR_QRCVEMPTY t ∉
        (busmustDrain (fun _ => "") true true reads).1) ∧
      (∀ reads t, REv.errorEvent PCAN_ERROR_QRCVEMPTY t ∉
        (pcanDrain (fun _ => none) true true reads).1) ∧
      busmustDrain (fun _ => "") true true
          ({ status := 5, msg := mB0, deliverOk := true } :: []) =
        ([REv.errorEvent 5 (BusmustStatusToString (fun _ => "") 5), REv.sleepMs 10], true) ∧
      pcanDrain (fun _ => none) true true
          ({ status := 5, msg := mP0, deliverOk := true } :: []) =
        ([REv.errorEvent 5 (PcanStatusToString (fun _ => none) 5), REv.sleepMs 10], true) ∧
      busmustDrain (fun _ => "") true true
          ({ status := BM_ERROR_QRCVEMPTY, msg := mB0, deliverOk := true } :: []) =
        ([], true) ∧
      pcanDrain (fun _ => none) true true
          ({ status := PCAN_ERROR_QRCVEMPTY, msg := mP0, deliverOk := true } :: []) =
        ([REv.sleepMs 2], true)) :=
  ⟨⟨by decide, by decide⟩,
   drain_error_policy (fun _ => "") (fun _ => none) true 5 mB0 mP0 true [] []
     (by decide) (by decide)⟩

/-- Claim C8, counterexample: at the concrete cycle where the session is
open, the handle and notification handle are present, and the
notification wait fails (`BM_WaitForNotifications` returns -1), the
worker emits nothing — in particular no close event — and keeps running,
contradicting the claim that a failed wait primitive stops the worker
and emits a close event. -/
theorem wait_failure_keeps_worker_running_cex :
    busmustCycle (fun _ => "") true true true (-1) true true [] = ([], true) ∧
    (busmustCycle (fun _ => "") true true true (-1) true true []).2 ≠ false := by
  refine ⟨by simp [busmustCycle], by simp [busmustCycle]⟩

/-- Claim C8, amended: runtime backend failures never terminate the
receive worker: a failed Busmust notification wait merely skips the drain
and continues; a failed PCAN event poll (other than `EINTR`) is reported
to the error sink and the loop continues after a backoff sleep; a non-OK
read status leaves the worker running; the worker stops only when
delivering a frame into the host runtime fails (the threadsafe-function
call is rejected), and it emits nothing in that case — the close event is
emitted by the teardown path (`StopReceiveThread`) exactly when a close
sink is registered. -/
theorem worker_termination_policy (lookupB : Nat → String)
    (lookupP : Nat → Option String) (hasMsg hasErr dOk : Bool)
    (waitResult : Int) (poll : PollOutcome) (sB sP : Nat)
    (mB : BM_CanMessageRx) (mP : TPCANMsg)
    (readsB restB : List (ReadOutcome BM_CanMessageRx))
    (restP : List (ReadOutcome TPCANMsg))
    (hw : waitResult < 0)
    (hp1 : poll.result < 0) (hp2 : poll.errnoVal ≠ EINTR)
    (hsB0 : sB ≠ BM_ERROR_OK) (hsBq : sB ≠ BM_ERROR_QRCVEMPTY)
    (hsP0 : sP ≠ PCAN_ERROR_OK) (hsPq : sP ≠ PCAN_ERROR_QRCVEMPTY) :
    busmustCycle lookupB true true true waitResult hasMsg hasErr readsB = ([], true) ∧
    pcanCycle lookupP true true true poll hasMsg true restP =
      ([REv.errorEvent poll.errnoVal "PCAN receive event poll failed",
        REv.sleepMs 10], true) ∧
    (busmustDrain lookupB hasMsg hasErr
      ({ status := sB, msg := mB, deliverOk := dOk } :: restB)).2 = true ∧
    (pcanDrain lookupP hasMsg hasErr
      ({ status := sP, msg := mP, deliverOk := dOk } :: restP)).2 = true ∧
    busmustDrain lookupB true hasErr
      ({ status := BM_ERROR_OK, msg := mB, deliverOk := false } :: restB) =
      ([], false) ∧
    pcanDrain lookupP true hasErr
      ({ status := PCAN_ERROR_OK, msg := mP, deliverOk := false } :: restP) =
      ([], false) ∧
    ∀ st : SessionState,
      TEv.emitCloseEvent ∈ (stopReceiveThread st).2 ↔ st.hasCloseSink = true := by
  have hp3 : ¬ (0 < poll.result ∧ poll.pollin) := by omega
  have hp4 : ¬ (poll.result = 0 ∨ (poll.result < 0 ∧ poll.errnoVal = EINTR)) := by
    push_neg
    exact ⟨by omega, fun _ => hp2⟩
  refine ⟨?_, ?_, ?_, ?_, ?_, ?_, ?_⟩
  · simp [busmustCycle, hw]
  · simp [pcanCycle, hp3, hp4, hp1]
    exact ⟨by omega, hp2⟩
  · by_cases h5 : hasErr <;> simp [busmustDrain, hsB0, hsBq, h5]
  · by_cases h5 : hasErr <;> simp [pcanDrain, hsP0, hsPq, h5]
  · simp [busmustDrain, BM_ERROR_OK]
  · simp [pcanDrain, PCAN_ERROR_OK]
  · intro st
    simp only [stopReceiveThread]
    by_cases hj : st.threadJoinable <;>
      by_cases hm : st.hasMsgSink <;>
        by_cases he : st.hasErrSink <;>
          by_cases hc : st.hasCloseSink <;>
            simp [hj, hm, he, hc]

/-- Claim C8, witness: wait result -1, poll result -1 with errno 5, and
read status 5 on both backends. -/
theorem worker_termination_policy_witness :
    ((-1 : Int) < 0 ∧
      ({ result := -1, pollin := false, errnoVal := 5 } : PollOutcome).result < 0 ∧
      ({ result := -1, pollin := false, errnoVal := 5 } : PollOutcome).errnoVal ≠ EINTR ∧
      (5 : Nat) ≠ BM_ERROR_OK ∧ (5 : Nat) ≠ BM_ERROR_QRCVEMPTY ∧
      (5 : Nat) ≠ PCAN_ERROR_OK ∧ (5 : Nat) ≠ PCAN_ERROR_QRCVEMPTY) ∧
    (busmustCycle (fun _ => "") true true true (-1) true true [] = ([], true) ∧
      pcanCycle (fun _ => none) true true true
          { result := -1, pollin := false, errnoVal := 5 } true true [] =
        ([REv.errorEvent 5 "PCAN receive event poll failed", REv.sleepMs 10], true) ∧
      (busmustDrain (fun _ => "") true true
        ({ status := 5, msg := mB0, deliverOk := true } :: [])).2 = true ∧
      (pcanDrain (fun _ => none) true true
        ({ status := 5, msg := mP0, deliverOk := true } :: [])).2 = true ∧
      busmustDrain (fun _ => "") true true
          ({ status := BM_ERROR_OK, msg := mB0, deliverOk := false } :: []) =
        ([], false) ∧
      pcanDrain (fun _ => none) true true
          ({ status := PCAN_ERROR_OK, msg := mP0, deliverOk := false } :: []) =
        ([], false) ∧
      ∀ st : SessionState,
        TEv.emitCloseEvent ∈ (stopReceiveThread st).2 ↔ st.hasCloseSink = true) :=
  ⟨⟨by decide, by decide, by decide, by decide, by decide, by decide, by decide⟩,
   worker_termination_policy (fun _ => "") (fun _ => none) true true true (-1)
     { result := -1, pollin := false, errnoVal := 5 } 5 5 mB0 mP0 [] [] []
     (by decide) (by decide) (by decide) (by decide) (by decide) (by decide)
     (by decide)⟩

/-- Claim C1: closing a session whose receive worker thread exists (an
active frame subscriber started it) joins the worker before any release
of the native backend handle: `joinWorker` occurs in the teardown trace,
and no `BM_Close` / `CAN_Uninitialize` action precedes it. -/
theorem close_joins_before_handle_release (s : SessionState)
    (_hsub : s.hasMsgSink = true) (hjoin : s.threadJoinable = true) :
    TEv.joinWorker ∈ (close s).2 ∧ noReleaseBeforeJoin ((close s).2) = true := by
  obtain ⟨bt, io, rr, tj, hm, he, hc, bh, bn, breg, ph, pf, rc⟩ := s
  simp only at hjoin
  subst hjoin
  cases bt <;>
    simp only [close, stopReceiveThread] <;>
    split_ifs <;>
    simp [noReleaseBeforeJoin, isHandleRelease]

/-- A concrete open Busmust session with an active frame subscriber and a
running worker thread. -/
def sOpenSub : SessionState :=
  { bustype := .busmust, isOpen := true, recvRunning := true,
    threadJoinable := true, hasMsgSink := true, hasErrSink := false,
    hasCloseSink := false, bmHandle := true, bmNotif := true,
    busmustRegistered := true, pcanHandle := false, pcanEventFd := false,
    busmustRefCount := 1 }

/-- Claim C1, witness: the concrete open subscribed session. -/
theorem close_joins_before_handle_release_witness :
    (sOpenSub.hasMsgSink = true ∧ sOpenSub.threadJoinable = true) ∧
    (TEv.joinWorker ∈ (close sOpenSub).2 ∧
      noReleaseBeforeJoin ((close sOpenSub).2) = true) :=
  ⟨⟨rfl, rfl⟩, close_joins_before_handle_release sOpenSub rfl rfl⟩

/-- After a close, the session is closed, the worker is not joinable, and
all sinks are released. -/
theorem close_resets (s : SessionState) :
    (close s).1.isOpen = false ∧ (close s).1.threadJoinable = false ∧
    (close s).1.hasMsgSink = false ∧ (close s).1.hasErrSink = false ∧
    (close s).1.hasCloseSink = false := by
  obtain ⟨bt, io, rr, tj, hm, he, hc, bh, bn, breg, ph, pf, rc⟩ := s
  cases bt <;>
    simp only [close, stopReceiveThread] <;>
    split_ifs <;>
    simp_all

/-- Closing an already-closed session (no open state, no thread, no sinks)
only clears the stop flag: the trace is `[setStopFlag]`. -/
theorem close_noop_when_closed (s : SessionState)
    (h1 : s.isOpen = false) (h2 : s.threadJoinable = false)
    (h3 : s.hasMsgSink = false) (h4 : s.hasErrSink = false)
    (h5 : s.hasCloseSink = false) :
    (close s).2 = [TEv.setStopFlag] := by
  simp [close, stopReceiveThread, h1, h2, h3, h4, h5]

/-- Claim C9: `close()` is idempotent — a second close after a completed
close performs no backend resource release at all: its trace is just the
stop-flag write, containing no `BM_Close`, no `BM_UnInit`, no
`CAN_Uninitialize`, and no decrement of the init reference count (the
model's `close` has no error output, matching the source, whose `Close`
always returns `undefined`). -/
theorem close_idempotent (s : SessionState) :
    (close (close s).1).2 = [TEv.setStopFlag] ∧
    TEv.bmClose ∉ (close (close s).1).2 ∧
    TEv.bmUnInit ∉ (close (close s).1).2 ∧
    TEv.canUninit ∉ (close (close s).1).2 ∧
    TEv.decBusmustRefCount ∉ (close (close s).1).2 := by
  obtain ⟨hio, htj, hhm, hhe, hhc⟩ := close_resets s
  have h := close_noop_when_closed (close s).1 hio htj hhm hhe hhc
  rw [h]
  refine ⟨rfl, by decide, by decide, by decide, by decide⟩

end AceCan
